import Mathlib

/-!
Shallow embedding of the najd-gateway message-exchange and
feedback-reconciliation pipeline (src/main.py).

The external collaborators are modelled as explicit inputs:
the outcome of the inference-provider call (query_azure_endpoint) is a
ProviderResult value, the document store is an explicit list of documents,
and storage operations that may raise are governed by Boolean flags.
Timestamps are modelled as natural numbers. Prompt assembly (the fixed
INSTRUCTIONS text and the temperature / max_tokens parameters) is opaque to
every claim and is therefore not modelled; the provider outcome is taken as
given.
-/

namespace NajdGateway

/-- The pydantic ChatRequest model (src/main.py lines 61-67). -/
structure ChatRequest where
  question : String
  userId : String
  messageId : String
  userName : String
  conversationId : String
  questionTimestamp : Nat
deriving DecidableEq

/-- The pydantic FeedbackRequest model (src/main.py lines 70-78). -/
structure FeedbackRequest where
  question : String
  answer : String
  userId : String
  messageId : String
  conversationId : String
  feedback : String
  questionTimestamp : Nat
  answerTimestamp : Nat
deriving DecidableEq

/-- A document of the conversations collection. MongoDB is schemaless, so
every field is optional; `none` models both an absent field and a stored
null (no claim distinguishes the two, and no code path writes a null other
than the feedback field of a fresh log entry). -/
structure Doc where
  userId : Option String := none
  userName : Option String := none
  conversationId : Option String := none
  messageId : Option String := none
  question : Option String := none
  answer : Option String := none
  questionTimestamp : Option Nat := none
  answerTimestamp : Option Nat := none
  feedback : Option String := none
  logTimestamp : Option Nat := none
deriving DecidableEq

/-- The conversations collection, in natural order. -/
abbrev Store := List Doc

/-- Parsed JSON body of a successful provider response. process_message only
reads its output field, via llm_response.get with default empty string, so
only that field is modelled; `none` means the key is absent. -/
structure ProviderResponse where
  output? : Option String
deriving DecidableEq

/-- Outcome of the query_azure_endpoint call as seen from process_message:
a parsed JSON response; an httpx.HTTPError (connection or timeout failure,
or a non-2xx status via raise_for_status); or any other exception raised by
the call (for example a JSON decoding failure of the response body). -/
inductive ProviderResult where
  | ok (resp : ProviderResponse)
  | transportError
  | otherError
deriving DecidableEq

/-- Fallback text yielded by the httpx.HTTPError handler
(src/main.py line 154). -/
def TRANSPORT_FALLBACK : String :=
  "I\x27m sorry, I\x27m having trouble accessing the necessary information right now. Please try again later."

/-- Fallback text yielded by the generic exception handler
(src/main.py line 157). -/
def GENERIC_FALLBACK : String :=
  "I apologize, but I\x27m experiencing technical difficulties. Please try again later."

/-- The log_entry dict built by process_message (src/main.py lines 134-145).
The source takes datetime.utcnow twice, once as an isoformat string for
answerTimestamp and once as a datetime for logTimestamp; both readings are
modelled as the single clock value `now`. The feedback field is written as
None. -/
def logEntryDoc (req : ChatRequest) (answer : String) (now : Nat) : Doc :=
  { userId := some req.userId
    userName := some req.userName
    conversationId := some req.conversationId
    messageId := some req.messageId
    question := some req.question
    answer := some answer
    questionTimestamp := some req.questionTimestamp
    answerTimestamp := some now
    feedback := none
    logTimestamp := some now }

/-- Result of consuming the process_message async generator to exhaustion:
the chunks it yielded, and the collection contents afterwards. The generator
catches every exception internally and yields instead of raising, so
consuming it never raises; the totality of the embedding models that. -/
structure PipelineResult where
  chunks : List String
  store : Store
deriving DecidableEq

/-- Shallow embedding of process_message (src/main.py lines 114-157).
On a parsed provider response the answer is the output field, defaulting to
the empty string; the log entry is inserted by collection.insert_one and
only then is the answer yielded. If insert_one raises, control jumps to the
generic except handler before the yield: the generic fallback is yielded
and nothing has been inserted. On an httpx.HTTPError from the provider call
the transport fallback is yielded; on any other provider failure the
generic fallback is yielded; neither failure path reaches the insert. -/
def process_message (req : ChatRequest) (provider : ProviderResult)
    (insertRaises : Bool) (now : Nat) (store : Store) : PipelineResult :=
  match provider with
  | .ok resp =>
      let full_response := resp.output?.getD ""
      if insertRaises then
        { chunks := [GENERIC_FALLBACK], store := store }
      else
        { chunks := [full_response],
          store := store ++ [logEntryDoc req full_response now] }
  | .transportError => { chunks := [TRANSPORT_FALLBACK], store := store }
  | .otherError => { chunks := [GENERIC_FALLBACK], store := store }

/-- The update-counts object returned by collection.update_one. -/
structure UpdateResult where
  matched_count : Nat
  modified_count : Nat
deriving DecidableEq

/-- The dollar-set document of save_feedback (src/main.py lines 163-169):
set feedback, questionTimestamp and answerTimestamp from the request. -/
def applySet (data : FeedbackRequest) (d : Doc) : Doc :=
  { d with feedback := some data.feedback
           questionTimestamp := some data.questionTimestamp
           answerTimestamp := some data.answerTimestamp }

/-- collection.update_one filtering on messageId with the set-document above
(src/main.py lines 161-170). It updates at most the first matching document.
modified_count counts documents actually changed: a document that matches
the filter but already carries exactly the set values is matched but not
modified, so modified_count is 0 while matched_count is 1 (MongoDB
semantics). -/
def update_one (store : Store) (data : FeedbackRequest) : Store × UpdateResult :=
  match store with
  | [] => ([], { matched_count := 0, modified_count := 0 })
  | d :: rest =>
      if d.messageId = some data.messageId then
        let d2 := applySet data d
        (d2 :: rest,
         { matched_count := 1, modified_count := if d2 = d then 0 else 1 })
      else
        let r := update_one rest data
        (d :: r.1, r.2)

/-- The document inserted by save_feedback on its modified-count-zero branch
(src/main.py line 176): the full FeedbackRequest payload, which carries no
userName and no logTimestamp. -/
def feedbackDoc (data : FeedbackRequest) : Doc :=
  { userId := some data.userId
    userName := none
    conversationId := some data.conversationId
    messageId := some data.messageId
    question := some data.question
    answer := some data.answer
    questionTimestamp := some data.questionTimestamp
    answerTimestamp := some data.answerTimestamp
    feedback := some data.feedback
    logTimestamp := none }

/-- Shallow embedding of save_feedback (src/main.py lines 160-176) together
with the error surface of its caller feedback_endpoint (lines 92-100).
The flags updateRaises and insertRaises model the two store operations
raising. save_feedback contains no try block: an exception from
collection.update_one propagates to feedback_endpoint, which answers with
an error status, and likewise for an exception from the fallback
collection.insert_one; `Except.error ()` models that surfaced error. When
update_one reports modified_count zero, the request payload is inserted as
a new document. -/
def save_feedback (store : Store) (data : FeedbackRequest)
    (updateRaises insertRaises : Bool) : Except Unit Store :=
  if updateRaises then
    Except.error ()
  else
    let r := update_one store data
    if r.2.modified_count = 0 then
      if insertRaises then Except.error ()
      else Except.ok (r.1 ++ [feedbackDoc data])
    else
      Except.ok r.1

/-- Number of documents in the store carrying a given messageId. -/
def countMid (store : Store) (mid : String) : Nat :=
  store.countP (fun d => decide (d.messageId = some mid))

/-- Concrete request used by the C1 counterexample. -/
def c1req : ChatRequest :=
  { question := "What is X?", userId := "u1", messageId := "m1"
    userName := "n", conversationId := "c1", questionTimestamp := 0 }

/-- Concrete request used by the C2 counterexample. -/
def c2req : ChatRequest :=
  { question := "What is X?", userId := "u1", messageId := "m1"
    userName := "n", conversationId := "c1", questionTimestamp := 0 }

/-- Concrete chat request behind the C3 failing input. -/
def c3req : ChatRequest :=
  { question := "What is X?", userId := "u1", messageId := "m1"
    userName := "n", conversationId := "c1", questionTimestamp := 5 }

/-- Concrete feedback payload of the C3 failing input. -/
def c3fb : FeedbackRequest :=
  { question := "What is X?", answer := "X is Y", userId := "u1"
    messageId := "m1", conversationId := "c1", feedback := "helpful"
    questionTimestamp := 5, answerTimestamp := 7 }

/-- Store holding exactly the m1 log entry, before any feedback. -/
def c3store0 : Store := [logEntryDoc c3req "X is Y" 7]

/-- Store after the first recordFeedback call of the C3 failing input. -/
def c3store1 : Store := [applySet c3fb (logEntryDoc c3req "X is Y" 7)]

/-- Concrete feedback payload of the C4 counterexample. -/
def c4fb : FeedbackRequest :=
  { question := "q", answer := "a", userId := "u1"
    messageId := "m1", conversationId := "c1", feedback := "helpful"
    questionTimestamp := 5, answerTimestamp := 7 }

/-- Concrete feedback payload of the C5 failing input. -/
def c5fb : FeedbackRequest :=
  { question := "q", answer := "a", userId := "u1"
    messageId := "m5", conversationId := "c1", feedback := "helpful"
    questionTimestamp := 5, answerTimestamp := 7 }

/-- The single m5 document of the C5 failing input: a log entry whose
feedback and timestamps already equal the payload values, exactly the state
a previous identical recordFeedback call leaves behind. -/
def c5doc : Doc :=
  applySet c5fb
    (logEntryDoc
      { question := "q", userId := "u1", messageId := "m5"
        userName := "n", conversationId := "c1", questionTimestamp := 5 }
      "a" 7)

/-- Concrete request used by the C9 counterexample: the client-supplied
questionTimestamp lies in the future of the server clock. -/
def c9badReq : ChatRequest :=
  { question := "q", userId := "u1", messageId := "m1"
    userName := "n", conversationId := "c1", questionTimestamp := 10 }

/-- Concrete request used by the C9 witness. -/
def c9req : ChatRequest :=
  { question := "q", userId := "u1", messageId := "m1"
    userName := "n", conversationId := "c1", questionTimestamp := 3 }

/-- C1, counterexample. With the provider call failing with a transport/HTTP
error on a concrete request against an empty collection, the pipeline emits
the fixed transport-fallback string but the store receives no insert at
all, so it does not receive exactly one log-entry insert carrying that
fallback text as the claim states. -/
theorem C1_counterexample :
    (process_message c1req ProviderResult.transportError false 0 []).chunks
      = [TRANSPORT_FALLBACK]
    ∧ (process_message c1req ProviderResult.transportError false 0 []).store.length
      ≠ 1 := by
  decide

/-- C1, amended. For every ChatRequest whose provider call fails with a
transport/HTTP error, the pipeline emits the fixed transport-fallback
string and performs no log-entry insert: the store is left unchanged. -/
theorem C1_amended (req : ChatRequest) (iR : Bool) (now : Nat) (store : Store) :
    process_message req ProviderResult.transportError iR now store
      = { chunks := [TRANSPORT_FALLBACK], store := store } :=
  rfl

/-- C2, counterexample. The provider succeeds with output field X is Y, the
log-entry insert fails: the caller receives the generic fallback string,
which differs from the provider answer, refuting the claim that the caller
still receives the provider answer when logging fails. -/
theorem C2_counterexample :
    (process_message c2req (ProviderResult.ok { output? := some "X is Y" })
        true 0 []).chunks = [GENERIC_FALLBACK]
    ∧ [GENERIC_FALLBACK] ≠ ["X is Y"] := by
  decide

/-- C2, amended. For every ChatRequest on which the provider call succeeds
but the log-entry insert fails, the failure is swallowed (the pipeline
still yields normally, no exception reaches the caller), but because the
insert is issued before the yield, the caller receives the generic
technical-difficulties fallback string instead of the provider answer, and
the store is unchanged. -/
theorem C2_amended (req : ChatRequest) (resp : ProviderResponse) (now : Nat)
    (store : Store) :
    process_message req (ProviderResult.ok resp) true now store
      = { chunks := [GENERIC_FALLBACK], store := store } :=
  rfl

/-- C3, code evaluated at the failing input. Starting from the store holding
exactly the m1 log entry, the first recordFeedback call updates it, but the
second identical call finds modified_count zero (the set values already
equal the stored ones), takes the not-found branch and inserts the payload
again: two m1 documents remain, refuting idempotence. -/
theorem C3_second_call_duplicates :
    save_feedback c3store0 c3fb false false = Except.ok c3store1
    ∧ save_feedback c3store1 c3fb false false
        = Except.ok (c3store1 ++ [feedbackDoc c3fb])
    ∧ countMid (c3store1 ++ [feedbackDoc c3fb]) "m1" = 2 :=
  ⟨rfl, rfl, by decide⟩

/-- C4, counterexample. When the update operation itself raises, with the
fallback insert not failing, save_feedback surfaces an error to the caller:
an error is therefore surfaced without both the update and the fallback
insert failing, and a failure of the update alone does surface an error. -/
theorem C4_update_raise_surfaces_error :
    save_feedback [] c4fb true false = Except.error () :=
  rfl

/-- C4, amended. recordFeedback does not fail the caller on the
not-found-then-insert path when the fallback insert succeeds; an error is
surfaced to the caller exactly when the update operation itself raises, or
when the update modifies zero documents and the fallback insert raises. A
modified-count-zero update alone does not surface an error, but a raising
update alone does (the fallback insert is then never attempted). -/
theorem C4_amended (store : Store) (data : FeedbackRequest) (uR iR : Bool) :
    save_feedback store data uR iR = Except.error ()
      ↔ (uR = true
          ∨ ((update_one store data).2.modified_count = 0 ∧ iR = true)) := by
  cases uR with
  | true => simp [save_feedback]
  | false =>
    by_cases h : (update_one store data).2.modified_count = 0
    · cases iR <;> simp [save_feedback, h]
    · simp [save_feedback, h]

/-- C5, code evaluated at the failing input. The store holds exactly one m5
document, whose feedback and timestamps already equal the payload values
(the state a previous identical recordFeedback leaves). recordFeedback
matches that document but modifies nothing, so modified_count is zero and
the payload is inserted as a second m5 document: two records for the
messageId exist afterwards, refuting the at-most-one invariant. -/
theorem C5_matched_but_unmodified_inserts_duplicate :
    countMid [c5doc] "m5" = 1
    ∧ save_feedback [c5doc] c5fb false false
        = Except.ok ([c5doc] ++ [feedbackDoc c5fb])
    ∧ countMid ([c5doc] ++ [feedbackDoc c5fb]) "m5" = 2 :=
  ⟨by decide, rfl, by decide⟩

/-- C6, confirmed. For every ChatRequest, every provider outcome, every
insert behaviour, every clock reading and every store state, the pipeline
yields a non-empty sequence of chunks; the embedding of process_message is
a total function into PipelineResult, modelling that every exception is
caught internally and none reaches the caller. -/
theorem C6_handle_total_nonempty (req : ChatRequest) (provider : ProviderResult)
    (iR : Bool) (now : Nat) (store : Store) :
    (process_message req provider iR now store).chunks ≠ [] := by
  cases provider <;> cases iR <;> simp [process_message]

/-- C7, confirmed. When the provider call succeeds with a response whose
output field holds v and the log insert succeeds, the emitted answer is
exactly [v]: the output field verbatim. -/
theorem C7_verbatim (req : ChatRequest) (v : String) (now : Nat) (store : Store) :
    (process_message req (ProviderResult.ok { output? := some v })
        false now store).chunks = [v] :=
  rfl

/-- C8, confirmed. When the inference call fails, the emitted answer is one
of exactly two fixed strings: the transport fallback on an httpx transport
or HTTP-status failure, and the generic fallback on any other failure; the
two strings are distinct. -/
theorem C8_two_fallbacks (req : ChatRequest) (iR : Bool) (now : Nat)
    (store : Store) :
    (process_message req ProviderResult.transportError iR now store).chunks
      = [TRANSPORT_FALLBACK]
    ∧ (process_message req ProviderResult.otherError iR now store).chunks
      = [GENERIC_FALLBACK]
    ∧ TRANSPORT_FALLBACK ≠ GENERIC_FALLBACK :=
  ⟨rfl, rfl, by decide⟩

/-- C9, counterexample. A successful handle call on a request whose
client-supplied questionTimestamp (10) lies in the future of the server
clock (5) inserts exactly one log entry, but its answerTimestamp (5) is
earlier than its questionTimestamp (10): nothing in the code enforces the
claimed inequality. -/
theorem C9_counterexample :
    (process_message c9badReq (ProviderResult.ok { output? := some "ans" })
        false 5 []).store.map
          (fun d => (d.answerTimestamp, d.questionTimestamp))
      = [(some 5, some 10)]
    ∧ ¬ (10 ≤ 5) := by
  decide

/-- C9, amended. Every successful handle call (provider call and insert both
succeed) appends exactly one log entry, with feedback null, answerTimestamp
equal to the server processing time, and questionTimestamp copied from the
request; provided the client-supplied questionTimestamp does not exceed the
server clock, that answerTimestamp is no earlier than questionTimestamp. -/
theorem C9_amended (req : ChatRequest) (resp : ProviderResponse) (now : Nat)
    (store : Store) (h : req.questionTimestamp ≤ now) :
    (process_message req (ProviderResult.ok resp) false now store).store
      = store ++ [logEntryDoc req (resp.output?.getD "") now]
    ∧ (logEntryDoc req (resp.output?.getD "") now).feedback = none
    ∧ (logEntryDoc req (resp.output?.getD "") now).answerTimestamp = some now
    ∧ (logEntryDoc req (resp.output?.getD "") now).questionTimestamp
        = some req.questionTimestamp
    ∧ req.questionTimestamp ≤ now :=
  ⟨rfl, rfl, rfl, rfl, h⟩

/-- C9, witness for the amended theorem at a concrete successful call with
questionTimestamp 3 and server clock 7. -/
theorem C9_amended_witness :
    (process_message c9req (ProviderResult.ok { output? := some "ans" })
        false 7 []).store = [logEntryDoc c9req "ans" 7]
    ∧ (logEntryDoc c9req "ans" 7).feedback = none
    ∧ (logEntryDoc c9req "ans" 7).answerTimestamp = some 7
    ∧ (logEntryDoc c9req "ans" 7).questionTimestamp = some 3
    ∧ 3 ≤ 7 := by
  exact C9_amended c9req { output? := some "ans" } 7 [] (by decide)

/-- C10, confirmed. When the provider call succeeds but the parsed JSON has
no output key, the pipeline emits the empty string, and the single inserted
log entry carries the empty string as its answer field: the missing key is
not treated as a failure. -/
theorem C10_missing_output_defaults_empty (req : ChatRequest) (now : Nat)
    (store : Store) :
    process_message req (ProviderResult.ok { output? := none }) false now store
      = { chunks := [""], store := store ++ [logEntryDoc req "" now] }
    ∧ (logEntryDoc req "" now).answer = some "" :=
  ⟨rfl, rfl⟩

end NajdGateway
